import Mathlib

/-!
Verification of the user CRUD data-access layer (src/crud.py) of the
workout-tracking application, over a shallow embedding.

The store is the `user` table of the SQLite database: a list of rows.
Each operation of crud.py opens a session, performs one change and
commits; we model an operation as a function from the store to a result
paired with the store after the call (on an uncaught exception the
session exits without commit, so the store is returned unchanged).
-/

/-- A row of the `user` table (src/models.py, class User): surrogate key
plus the two text fields.  In the database the key is always populated,
so it is a plain `Nat` here. -/
structure User where
  id : Nat
  username : String
  email : String
deriving Repr, DecidableEq

/-- The persisted state relevant to crud.py: the rows of the `user` table. -/
abbrev Store := List User

/-- The rowid SQLite assigns to a fresh insert into a table without
AUTOINCREMENT: one more than the largest rowid in use. -/
def nextId (st : Store) : Nat := (st.map User.id).foldr max 0 + 1

/-- The exceptions the crud.py operations can raise.
* `noResultFound` — sqlalchemy NoResultFound, from `result.one()` on zero rows;
* `multipleResultsFound` — sqlalchemy MultipleResultsFound, from `result.one()`
  on more than one row;
* `attributeErrorNone` — Python AttributeError, from setting a field on the
  `None` returned by `session.get` for a missing id;
* `unmappedInstanceError` — sqlalchemy UnmappedInstanceError, from
  `session.add(None)` or `session.delete(None)`. -/
inductive DBError where
  | noResultFound
  | multipleResultsFound
  | attributeErrorNone
  | unmappedInstanceError
deriving Repr, DecidableEq

/-- Python truthiness of an `Optional[str]`: `None` and `""` are falsy,
every other string is truthy. -/
def truthy : Option String → Bool
  | none => false
  | some s => !s.isEmpty

/-- `session.get(User, user_id)`: primary-key lookup, `None` when absent. -/
def sessionGet (st : Store) (user_id : Nat) : Option User :=
  st.find? (fun u => u.id == user_id)

/-- Committing a loaded-and-modified row: the UPDATE hits every row whose
primary key equals the row's key (under the primary-key constraint there
is at most one). -/
def setRow (st : Store) (u : User) : Store :=
  st.map (fun r => if r.id == u.id then u else r)

/-- crud.py `create_user`: build a User from the two fields, add, commit,
refresh; the refreshed object carries the store-assigned id and is
returned together with the new store. -/
def create_user (st : Store) (username email : String) : User × Store :=
  let user : User := { id := nextId st, username := username, email := email }
  (user, st ++ [user])

/-- crud.py `get_user`: `select(User).where(User.id == user_id)` then
`result.one()`, which raises NoResultFound on zero rows and
MultipleResultsFound on more than one. -/
def get_user (st : Store) (user_id : Nat) : Except DBError User :=
  match st.filter (fun u => u.id == user_id) with
  | [] => Except.error DBError.noResultFound
  | [u] => Except.ok u
  | _ :: _ :: _ => Except.error DBError.multipleResultsFound

/-- crud.py `update_user`: `session.get`, then `if username:` /
`if email:` guards overwrite each field only when its replacement is
truthy, then add + commit + refresh.  When the id does not resolve,
`user` is `None`: a truthy replacement raises AttributeError at the
first field assignment, otherwise `session.add(None)` raises
UnmappedInstanceError; either way nothing is committed. -/
def update_user (st : Store) (user_id : Nat) (username email : Option String) :
    Except DBError User × Store :=
  match sessionGet st user_id with
  | none =>
      if truthy username || truthy email then
        (Except.error DBError.attributeErrorNone, st)
      else
        (Except.error DBError.unmappedInstanceError, st)
  | some u0 =>
      let u1 := if truthy username then { u0 with username := username.getD u0.username } else u0
      let u2 := if truthy email then { u1 with email := email.getD u1.email } else u1
      (Except.ok u2, setRow st u2)

/-- crud.py `delete_user`: `session.get`, then `session.delete` + commit.
The Python function returns `None`, so the result type is `Unit`.  When
the id does not resolve, `session.delete(None)` raises
UnmappedInstanceError and nothing is committed. -/
def delete_user (st : Store) (user_id : Nat) : Except DBError Unit × Store :=
  match sessionGet st user_id with
  | none => (Except.error DBError.unmappedInstanceError, st)
  | some _ => (Except.ok (), st.filter (fun r => !(r.id == user_id)))

/-! ### Helper lemmas -/

theorem le_foldr_max {a : Nat} {l : List Nat} (h : a ∈ l) : a ≤ l.foldr max 0 := by
  induction l with
  | nil => cases h
  | cons b t ih =>
    rcases List.mem_cons.mp h with rfl | h'
    · exact le_max_left _ _
    · exact le_trans (ih h') (le_max_right _ _)

theorem id_lt_nextId {st : Store} {r : User} (h : r ∈ st) : r.id < nextId st :=
  Nat.lt_succ_of_le (le_foldr_max (List.mem_map_of_mem User.id h))

theorem get_user_of_not_mem {st : Store} {user_id : Nat}
    (h : ∀ r ∈ st, r.id ≠ user_id) :
    get_user st user_id = Except.error DBError.noResultFound := by
  have hf : st.filter (fun u => u.id == user_id) = [] :=
    List.filter_eq_nil_iff.mpr (fun r hr => by simpa using h r hr)
  simp [get_user, hf]

theorem sessionGet_eq_none {st : Store} {user_id : Nat}
    (h : ∀ r ∈ st, r.id ≠ user_id) :
    sessionGet st user_id = none :=
  List.find?_eq_none.mpr (fun r hr => by simpa using h r hr)

/-! ### Claims -/

/-- C1: for every pair of text values, `create_user` followed by
`get_user` on the identifier of the returned User yields a User whose
username and email are exactly the two given values (in fact the very
User that `create_user` returned). -/
theorem create_then_read (st : Store) (username email : String) :
    get_user (create_user st username email).2 (create_user st username email).1.id =
      Except.ok (create_user st username email).1 ∧
    (create_user st username email).1.username = username ∧
    (create_user st username email).1.email = email := by
  refine ⟨?_, rfl, rfl⟩
  have hfresh : ∀ r ∈ st, (r.id == nextId st) = false := by
    intro r hr
    simpa using Nat.ne_of_lt (id_lt_nextId hr)
  have hnil : st.filter (fun u => u.id == nextId st) = [] :=
    List.filter_eq_nil_iff.mpr (fun r hr => by simp [hfresh r hr])
  simp [create_user, get_user, List.filter_append, hnil]

theorem sessionGet_mem {st : Store} {user_id : Nat} {u : User}
    (h : sessionGet st user_id = some u) : u ∈ st :=
  List.mem_of_find?_eq_some h

theorem sessionGet_id {st : Store} {user_id : Nat} {u : User}
    (h : sessionGet st user_id = some u) : u.id = user_id := by
  have := List.find?_some h
  simpa using this

theorem eq_of_nodup_ids {st : Store} (hnd : (st.map User.id).Nodup)
    {u r : User} (hu : u ∈ st) (hr : r ∈ st) (h : r.id = u.id) : r = u := by
  induction st with
  | nil => cases hu
  | cons a t ih =>
    rw [List.map_cons, List.nodup_cons] at hnd
    rcases hnd with ⟨ha, ht⟩
    rcases List.mem_cons.mp hu with rfl | hu' <;> rcases List.mem_cons.mp hr with rfl | hr'
    · rfl
    · exact absurd (h ▸ List.mem_map_of_mem User.id hr') ha
    · exact absurd (h ▸ List.mem_map_of_mem User.id hu') ha
    · exact ih ht hu' hr'

theorem setRow_self {st : Store} {u : User}
    (h : ∀ r ∈ st, r.id = u.id → r = u) : setRow st u = st := by
  induction st with
  | nil => rfl
  | cons a t ih =>
    have ht : setRow t u = t := ih (fun r hr => h r (List.mem_cons_of_mem a hr))
    by_cases ha : a.id = u.id
    · have : a = u := h a (List.mem_cons_self a t) ha
      simp [setRow, ha, this] at ht ⊢
      exact ht
    · simpa [setRow, ha] using ht

/-- C2: updating an existing User with two falsy replacement values
(each either absent or the empty string) succeeds, returns the stored
User with both fields at their old values, and leaves the store exactly
unchanged: an empty-string replacement means "no change", not "clear the
field".  The hypothesis `hnd` is the primary-key uniqueness the store
enforces on the `user` table. -/
theorem update_both_falsy_noop (st : Store) (user_id : Nat)
    (username email : Option String) (u : User)
    (hnd : (st.map User.id).Nodup)
    (hfind : sessionGet st user_id = some u)
    (hu : truthy username = false) (he : truthy email = false) :
    update_user st user_id username email = (Except.ok u, st) := by
  have hst : setRow st u = st :=
    setRow_self (fun r hr hid => eq_of_nodup_ids hnd (sessionGet_mem hfind) hr hid)
  simp [update_user, hfind, hu, he, hst]

/-- C3: reading an identifier that no stored row matches fails with
sqlalchemy's NoResultFound ("not found"): zero matching rows is an
error, never an empty or null result. -/
theorem read_missing_not_found (st : Store) (user_id : Nat)
    (h : ∀ r ∈ st, r.id ≠ user_id) :
    get_user st user_id = Except.error DBError.noResultFound :=
  get_user_of_not_mem h

/-- C4: updating an identifier that resolves to no stored row always
fails — the `session.get` lookup finds nothing, and the resulting
`None` makes the operation raise (AttributeError at the first truthy
field assignment, otherwise UnmappedInstanceError at `session.add`)
instead of succeeding. -/
theorem update_missing_fails (st : Store) (user_id : Nat)
    (username email : Option String) (h : ∀ r ∈ st, r.id ≠ user_id) :
    (update_user st user_id username email).1 =
      Except.error (if truthy username || truthy email then
        DBError.attributeErrorNone else DBError.unmappedInstanceError) := by
  have hg := sessionGet_eq_none h
  by_cases hb : (truthy username || truthy email) = true <;>
    simp [update_user, hg, hb]

/-- C5: deleting an identifier that resolves to no stored row fails —
`session.get` finds nothing and `session.delete(None)` raises
UnmappedInstanceError — rather than succeeding silently. -/
theorem delete_missing_fails (st : Store) (user_id : Nat)
    (h : ∀ r ∈ st, r.id ≠ user_id) :
    (delete_user st user_id).1 = Except.error DBError.unmappedInstanceError := by
  simp [delete_user, sessionGet_eq_none h]

/-- C6: when `delete_user` succeeds on an identifier, the row is removed
from the store (the Python function returns no value), and a subsequent
`get_user` of the same identifier fails with NoResultFound. -/
theorem delete_then_read_not_found (st : Store) (user_id : Nat)
    (h : (delete_user st user_id).1 = Except.ok ()) :
    get_user (delete_user st user_id).2 user_id =
      Except.error DBError.noResultFound := by
  cases hg : sessionGet st user_id with
  | none => simp [delete_user, hg] at h
  | some u =>
    have hsub : ∀ r ∈ (delete_user st user_id).2, r.id ≠ user_id := by
      intro r hr
      simp [delete_user, hg, List.mem_filter] at hr
      exact hr.2
    exact get_user_of_not_mem hsub

theorem mem_setRow_of_ne {st : Store} {u r : User} (hr : r ∈ st)
    (h : r.id ≠ u.id) : r ∈ setRow st u := by
  have := List.mem_map_of_mem (fun x => if x.id == u.id then u else x) hr
  simpa [setRow, h] using this

theorem mem_of_mem_setRow_ne {st : Store} {u r' : User}
    (h : r' ∈ setRow st u) (hne : r'.id ≠ u.id) : r' ∈ st := by
  rcases List.mem_map.mp h with ⟨r, hr, heq⟩
  by_cases hc : r.id = u.id
  · simp [hc] at heq
    exact absurd (heq ▸ rfl) hne
  · simp [hc] at heq
    exact heq ▸ hr

theorem setRow_map_id (st : Store) (u : User) :
    (setRow st u).map User.id = st.map User.id := by
  induction st with
  | nil => rfl
  | cons a t ih =>
    by_cases h : a.id = u.id <;> simp [setRow, h] at ih ⊢ <;> exact ih

/-- C7: updating an existing User with exactly one truthy replacement
field (a nonempty string) replaces only that field: the result keeps the
other field's old value, every other stored row is still present
unchanged, and every row of the new store at a different id was already
in the old store. -/
theorem update_one_field (st : Store) (user_id : Nat) (u : User) (s : String)
    (hfind : sessionGet st user_id = some u) (hs : s.isEmpty = false) :
    ((update_user st user_id (some s) none).1 =
        Except.ok { u with username := s } ∧
      (∀ r ∈ st, r.id ≠ user_id → r ∈ (update_user st user_id (some s) none).2) ∧
      (∀ r ∈ (update_user st user_id (some s) none).2, r.id ≠ user_id → r ∈ st)) ∧
    ((update_user st user_id none (some s)).1 =
        Except.ok { u with email := s } ∧
      (∀ r ∈ st, r.id ≠ user_id → r ∈ (update_user st user_id none (some s)).2) ∧
      (∀ r ∈ (update_user st user_id none (some s)).2, r.id ≠ user_id → r ∈ st)) := by
  have hid : u.id = user_id := sessionGet_id hfind
  constructor <;> constructor
  · simp [update_user, hfind, truthy, hs]
  · constructor
    · intro r hr hrid
      simp only [update_user, hfind, truthy, hs]
      exact mem_setRow_of_ne hr (by simpa [hid] using hrid)
    · intro r' hr' hrid
      simp only [update_user, hfind, truthy, hs] at hr'
      exact mem_of_mem_setRow_ne hr' (by simpa [hid] using hrid)
  · simp [update_user, hfind, truthy, hs]
  · constructor
    · intro r hr hrid
      simp only [update_user, hfind, truthy, hs]
      exact mem_setRow_of_ne hr (by simpa [hid] using hrid)
    · intro r' hr' hrid
      simp only [update_user, hfind, truthy, hs] at hr'
      exact mem_of_mem_setRow_ne hr' (by simpa [hid] using hrid)

/-- C8: `create_user` is total — it never raises, in particular never
because some stored row already has the same username or email (the
quantification over `st` includes every such store) — and returns the
new User with the store-assigned identifier populated (positive and
distinct from every existing id), appended to the store. -/
theorem create_always_succeeds (st : Store) (username email : String) :
    (create_user st username email).1 =
      { id := nextId st, username := username, email := email } ∧
    0 < (create_user st username email).1.id ∧
    (create_user st username email).1.id ∉ st.map User.id ∧
    (create_user st username email).2 =
      st ++ [(create_user st username email).1] := by
  refine ⟨rfl, Nat.succ_pos _, ?_, rfl⟩
  intro hmem
  rcases List.mem_map.mp hmem with ⟨r, hr, hid⟩
  exact absurd hid (Nat.ne_of_lt (id_lt_nextId hr))

/-- C9: surrogate keys are assigned by the store on insert (`create_user`
returns the SQLite-assigned rowid) and no later operation changes the id
of a surviving row: `update_user` leaves the id column of the store
untouched in every case, and the store after `delete_user` is a sublist
of the old store (surviving rows are bitwise the old rows). -/
theorem surrogate_keys_immutable (st : Store) :
    (∀ username email : String,
      (create_user st username email).1.id = nextId st) ∧
    (∀ user_id : Nat, ∀ username email : Option String,
      (update_user st user_id username email).2.map User.id = st.map User.id) ∧
    (∀ user_id : Nat, ((delete_user st user_id).2).Sublist st) := by
  refine ⟨fun _ _ => rfl, ?_, ?_⟩
  · intro user_id username email
    cases hg : sessionGet st user_id with
    | none =>
      by_cases hb : (truthy username || truthy email) = true <;>
        simp [update_user, hg, hb]
    | some u0 => simp [update_user, hg, setRow_map_id]
  · intro user_id
    cases hg : sessionGet st user_id with
    | none => simp [delete_user, hg]
    | some u =>
      simp only [delete_user, hg]
      exact List.filter_sublist st

/-- C10: when the identifier resolves to no row, `update_user` and
`delete_user` raise their exception before any commit is issued, so the
store after the call is exactly the store before it. -/
theorem missing_id_atomic (st : Store) (user_id : Nat)
    (h : ∀ r ∈ st, r.id ≠ user_id) :
    (∀ username email : Option String,
      (update_user st user_id username email).1 =
        Except.error (if truthy username || truthy email then
          DBError.attributeErrorNone else DBError.unmappedInstanceError) ∧
      (update_user st user_id username email).2 = st) ∧
    ((delete_user st user_id).1 = Except.error DBError.unmappedInstanceError ∧
      (delete_user st user_id).2 = st) := by
  have hg := sessionGet_eq_none h
  refine ⟨fun username email => ?_, by simp [delete_user, hg]⟩
  by_cases hb : (truthy username || truthy email) = true <;>
    simp [update_user, hg, hb]

/-! ### Concrete witnesses -/

/-- Witness for C2 at the spec's concrete scenario row. -/
theorem update_both_falsy_noop_witness :
    update_user [User.mk 1 "alice" "a@x.com"] 1 (some "") none =
      (Except.ok (User.mk 1 "alice" "a@x.com"), [User.mk 1 "alice" "a@x.com"]) :=
  update_both_falsy_noop [User.mk 1 "alice" "a@x.com"] 1 (some "") none
    (User.mk 1 "alice" "a@x.com") (by decide) (by decide) (by decide) (by decide)

/-- Witness for C3: id 2 matches nothing in a one-row store. -/
theorem read_missing_not_found_witness :
    get_user [User.mk 1 "alice" "a@x.com"] 2 = Except.error DBError.noResultFound :=
  read_missing_not_found [User.mk 1 "alice" "a@x.com"] 2 (by decide)

/-- Witness for C4: updating id 1 of the empty store fails. -/
theorem update_missing_fails_witness :
    (update_user [] 1 (some "bob") none).1 =
      Except.error DBError.attributeErrorNone :=
  update_missing_fails [] 1 (some "bob") none (by decide)

/-- Witness for C5: deleting id 1 of the empty store fails. -/
theorem delete_missing_fails_witness :
    (delete_user [] 1).1 = Except.error DBError.unmappedInstanceError :=
  delete_missing_fails [] 1 (by decide)

/-- Witness for C6: delete id 1 of a one-row store, then read id 1. -/
theorem delete_then_read_not_found_witness :
    get_user (delete_user [User.mk 1 "alice" "a@x.com"] 1).2 1 =
      Except.error DBError.noResultFound :=
  delete_then_read_not_found [User.mk 1 "alice" "a@x.com"] 1 rfl

/-- Witness for C7 at the spec's concrete scenario:
update(1, email="a2@x.com") keeps username "alice". -/
theorem update_one_field_witness :
    (update_user [User.mk 1 "alice" "a@x.com"] 1 none (some "a2@x.com")).1 =
      Except.ok (User.mk 1 "alice" "a2@x.com") :=
  ((update_one_field [User.mk 1 "alice" "a@x.com"] 1 (User.mk 1 "alice" "a@x.com")
      "a2@x.com" (by decide) (by decide)).2).1

/-- Witness for C10: failing update and delete at id 2 leave a one-row
store exactly as it was. -/
theorem missing_id_atomic_witness :
    (update_user [User.mk 1 "alice" "a@x.com"] 2 (some "bob") none).2 =
        [User.mk 1 "alice" "a@x.com"] ∧
    (delete_user [User.mk 1 "alice" "a@x.com"] 2).2 =
        [User.mk 1 "alice" "a@x.com"] :=
  ⟨((missing_id_atomic [User.mk 1 "alice" "a@x.com"] 2 (by decide)).1
      (some "bob") none).2,
   (missing_id_atomic [User.mk 1 "alice" "a@x.com"] 2 (by decide)).2.2⟩
